import Mathlib

/-!
Verification of the uniwill-fan-control repository.

The kernel module `uniwill_fan.c` drives an embedded controller (EC) through
single-register read/write transactions.  We embed its register-level state
machine shallowly: the EC RAM is a function from register addresses to byte
values, each driver operation is a pure function from driver state to driver
state together with the trace of EC transactions it issues.  Reads are modelled
as returning the currently stored value (transport failures are out of scope of
the claims about operation sequencing).

The userspace daemon sources (two variants of `uniwill-fanctl.c`) contain the
fan-curve interpolation, hysteresis, and temperature smoothing logic; these are
embedded as pure functions over `Int` (C `int`), with C truncating division
rendered as `Int.tdiv`.
-/

/-! ## EC register addresses and constants from uniwill_fan.c -/

def UW_EC_REG_USE_CUSTOM_FAN_TABLE_0 : Nat := 0x07c5
def UW_EC_REG_USE_CUSTOM_FAN_TABLE_1 : Nat := 0x07c6

def UW_EC_REG_CPU_FAN_TABLE_END_TEMP : Nat := 0x0f00
def UW_EC_REG_CPU_FAN_TABLE_START_TEMP : Nat := 0x0f10
def UW_EC_REG_CPU_FAN_TABLE_FAN_SPEED : Nat := 0x0f20

def UW_EC_REG_GPU_FAN_TABLE_END_TEMP : Nat := 0x0f30
def UW_EC_REG_GPU_FAN_TABLE_START_TEMP : Nat := 0x0f40
def UW_EC_REG_GPU_FAN_TABLE_FAN_SPEED : Nat := 0x0f50

def UW_EC_REG_FAN1_SPEED : Nat := 0x1804
def UW_EC_REG_FAN2_SPEED : Nat := 0x1809

def UW_EC_REG_FAN1_TEMP : Nat := 0x043e
def UW_EC_REG_FAN2_TEMP : Nat := 0x044f

def UW_EC_REG_FAN_MODE : Nat := 0x0751
def UW_EC_FAN_MODE_BIT : Nat := 0x40

def UW_EC_REG_MANUAL_MODE : Nat := 0x0741

def UW_EC_REG_CUSTOM_PROFILE : Nat := 0x0727
def UW_EC_CUSTOM_PROFILE_BIT : Nat := 0x40

def FAN_SPEED_MAX : Nat := 0xc8
def FAN_ON_MIN_SPEED : Nat := 0x19

/-! ## EC transaction traces and driver state -/

/-- One EC transaction (or an explicit delay), as issued by the kernel module.
A `read` records the value observed at the time of the read. -/
inductive EcOp where
  | read (addr : Nat) (value : Nat)
  | write (addr : Nat) (value : Nat)
  | sleep (ms : Nat)
deriving DecidableEq, Repr

/-- The register address an operation touches; delays touch none. -/
def EcOp.addrOf : EcOp → Option Nat
  | EcOp.read a _ => some a
  | EcOp.write a _ => some a
  | EcOp.sleep _ => none

/-- Driver state: the EC RAM (register address to byte value) together with the
module-global `fans_initialized` flag. -/
structure DriverState where
  ec : Nat → Nat
  fans_initialized : Bool

/-- Effect of one EC operation on EC RAM: only writes change it. -/
def applyOp (ec : Nat → Nat) : EcOp → (Nat → Nat)
  | EcOp.write a v => Function.update ec a v
  | _ => ec

/-- Effect of a trace of EC operations on EC RAM. -/
def applyOps (ec : Nat → Nat) (ops : List EcOp) : Nat → Nat :=
  ops.foldl applyOp ec

/-! ## uw_ec_write retry loop

The transport write retries the WMI transaction; we model the success or
failure of each WMI attempt by an oracle indexed by attempt number (the first
attempt is number 1). -/

/-- Events of the `uw_ec_write` retry loop: a WMI attempt, or an `msleep`. -/
inductive WmiEv where
  | attempt (n : Nat)
  | sleep (ms : Nat)
deriving DecidableEq, Repr

/-- The retry loop of `uw_ec_write`: try the WMI call; on failure, if the
decremented retry counter (`--retries`) is still positive, sleep 50 ms and try
again, otherwise give up with -EIO (= -5).  Mirrors the `retry:` goto loop. -/
def uw_ec_write_go (oracle : Nat → Bool) (attempt retries : Nat) : Int × List WmiEv :=
  if oracle attempt then (0, [WmiEv.attempt attempt])
  else if retries - 1 > 0 then
    let p := uw_ec_write_go oracle (attempt + 1) (retries - 1)
    (p.1, WmiEv.attempt attempt :: WmiEv.sleep 50 :: p.2)
  else (-5, [WmiEv.attempt attempt])
termination_by retries
decreasing_by omega

/-- `uw_ec_write` enters the loop with `retries = 3`. -/
def uw_ec_write (oracle : Nat → Bool) : Int × List WmiEv :=
  uw_ec_write_go oracle 1 3

/-- Number of WMI attempts in a trace. -/
def countAttempts (evs : List WmiEv) : Nat :=
  evs.countP (fun e => match e with | WmiEv.attempt _ => true | _ => false)

/-! ## init_custom_fan_table -/

/-- The dummy-zone fill loop of `init_custom_fan_table`
(`for (i = 1; i <= 15; i++)` with `temp_offset = 115`): `zoneDummyOps n` is the
trace of the first `n` iterations. -/
def zoneDummyOps : Nat → List EcOp
  | 0 => []
  | Nat.succ n =>
    zoneDummyOps n ++
      [EcOp.write (UW_EC_REG_CPU_FAN_TABLE_END_TEMP + (n + 1)) (115 + (n + 1) + 1),
       EcOp.write (UW_EC_REG_CPU_FAN_TABLE_START_TEMP + (n + 1)) (115 + (n + 1)),
       EcOp.write (UW_EC_REG_CPU_FAN_TABLE_FAN_SPEED + (n + 1)) 0xc8,
       EcOp.write (UW_EC_REG_GPU_FAN_TABLE_END_TEMP + (n + 1)) (115 + (n + 1) + 1),
       EcOp.write (UW_EC_REG_GPU_FAN_TABLE_START_TEMP + (n + 1)) (115 + (n + 1)),
       EcOp.write (UW_EC_REG_GPU_FAN_TABLE_FAN_SPEED + (n + 1)) 0xc8]

/-- `init_custom_fan_table`: guarded by `fans_initialized`; otherwise
(1) toggle the custom-profile bit (clear, sleep 50 ms, set),
(2) write 1 to the manual-mode register,
(3) clear the full-fan-mode bit 0x40 if set,
(4) set bit 7 of custom-fan-table-0 if clear,
(5) program zone 0 of both fan tables and fill zones 1-15 with dummies,
(6) set bit 2 of custom-fan-table-1 if clear, then set the flag.
Every read observes the pre-call EC RAM; in the source no register is read
after being written within this function, so recording read values against the
initial RAM is exact. -/
def init_custom_fan_table (s : DriverState) : DriverState × List EcOp :=
  if s.fans_initialized then (s, [])
  else
    let p0 := s.ec UW_EC_REG_CUSTOM_PROFILE
    let p1 := p0 &&& 0xbf
    let p2 := p1 ||| UW_EC_CUSTOM_PROFILE_BIT
    let opsProfile := [EcOp.read UW_EC_REG_CUSTOM_PROFILE p0,
                       EcOp.write UW_EC_REG_CUSTOM_PROFILE p1,
                       EcOp.sleep 50,
                       EcOp.write UW_EC_REG_CUSTOM_PROFILE p2]
    let opsManual := [EcOp.write UW_EC_REG_MANUAL_MODE 0x01]
    let fm := s.ec UW_EC_REG_FAN_MODE
    let opsFanMode := EcOp.read UW_EC_REG_FAN_MODE fm ::
      (if fm &&& UW_EC_FAN_MODE_BIT ≠ 0 then
        [EcOp.write UW_EC_REG_FAN_MODE (fm &&& 0xbf)] else [])
    let tb0 := s.ec UW_EC_REG_USE_CUSTOM_FAN_TABLE_0
    let opsTable0 := EcOp.read UW_EC_REG_USE_CUSTOM_FAN_TABLE_0 tb0 ::
      (if (tb0 >>> 7) &&& 1 = 0 then
        [EcOp.write UW_EC_REG_USE_CUSTOM_FAN_TABLE_0 (tb0 ||| (1 <<< 7))] else [])
    let opsZone0 := [EcOp.write UW_EC_REG_CPU_FAN_TABLE_END_TEMP 115,
                     EcOp.write UW_EC_REG_CPU_FAN_TABLE_START_TEMP 0,
                     EcOp.write UW_EC_REG_CPU_FAN_TABLE_FAN_SPEED 0x00,
                     EcOp.write UW_EC_REG_GPU_FAN_TABLE_END_TEMP 120,
                     EcOp.write UW_EC_REG_GPU_FAN_TABLE_START_TEMP 0,
                     EcOp.write UW_EC_REG_GPU_FAN_TABLE_FAN_SPEED 0x00]
    let opsDummy := zoneDummyOps 15
    let tb1 := s.ec UW_EC_REG_USE_CUSTOM_FAN_TABLE_1
    let opsTable1 := EcOp.read UW_EC_REG_USE_CUSTOM_FAN_TABLE_1 tb1 ::
      (if (tb1 >>> 2) &&& 1 = 0 then
        [EcOp.write UW_EC_REG_USE_CUSTOM_FAN_TABLE_1 (tb1 ||| (1 <<< 2))] else [])
    let ops := opsProfile ++ opsManual ++ opsFanMode ++ opsTable0 ++
               opsZone0 ++ opsDummy ++ opsTable1
    ({ ec := applyOps s.ec ops, fans_initialized := true }, ops)

/-! ## fan_set_auto -/

/-- `fan_set_auto`: disable the table-1 enable bit (bit 2 of 0x07c6) if set,
then the table-0 enable bit (bit 7 of 0x07c5) if set, then clear the
full-fan-mode bit 0x40 if set, then write 0 to the manual-mode register
unconditionally, then clear the custom-profile bit if set; finally clear the
`fans_initialized` flag.  Each register is read before any write to it, and no
register is written before one of the later reads, so recording read values
against the pre-call EC RAM is exact. -/
def fan_set_auto (s : DriverState) : DriverState × List EcOp :=
  let tb1 := s.ec UW_EC_REG_USE_CUSTOM_FAN_TABLE_1
  let opsTable1 := EcOp.read UW_EC_REG_USE_CUSTOM_FAN_TABLE_1 tb1 ::
    (if (tb1 >>> 2) &&& 1 = 1 then
      [EcOp.write UW_EC_REG_USE_CUSTOM_FAN_TABLE_1 (tb1 &&& 0xfb)] else [])
  let tb0 := s.ec UW_EC_REG_USE_CUSTOM_FAN_TABLE_0
  let opsTable0 := EcOp.read UW_EC_REG_USE_CUSTOM_FAN_TABLE_0 tb0 ::
    (if (tb0 >>> 7) &&& 1 = 1 then
      [EcOp.write UW_EC_REG_USE_CUSTOM_FAN_TABLE_0 (tb0 &&& 0x7f)] else [])
  let md := s.ec UW_EC_REG_FAN_MODE
  let opsFanMode := EcOp.read UW_EC_REG_FAN_MODE md ::
    (if md &&& UW_EC_FAN_MODE_BIT ≠ 0 then
      [EcOp.write UW_EC_REG_FAN_MODE (md &&& 0xbf)] else [])
  let opsManual := [EcOp.write UW_EC_REG_MANUAL_MODE 0x00]
  let pf := s.ec UW_EC_REG_CUSTOM_PROFILE
  let opsProfile := EcOp.read UW_EC_REG_CUSTOM_PROFILE pf ::
    (if pf &&& UW_EC_CUSTOM_PROFILE_BIT ≠ 0 then
      [EcOp.write UW_EC_REG_CUSTOM_PROFILE (pf &&& 0xbf)] else [])
  let ops := opsTable1 ++ opsTable0 ++ opsFanMode ++ opsManual ++ opsProfile
  ({ ec := applyOps s.ec ops, fans_initialized := false }, ops)

/-! ## fan_set_speed and the sysfs stores -/

/-- The value transformation of `fan_set_speed`: clamp to `FAN_SPEED_MAX`,
then remap 0 to 1 and raise anything below `FAN_ON_MIN_SPEED` to that floor. -/
def fanRemap (speed : Nat) : Nat :=
  let c := if speed > FAN_SPEED_MAX then FAN_SPEED_MAX else speed
  if c = 0 then 1
  else if c < FAN_ON_MIN_SPEED then FAN_ON_MIN_SPEED
  else c

/-- The direct-speed write loop of `fan_set_speed`
(`for (i = 0; i < 5; i++) { uw_ec_write(direct_addr, speed); msleep(10); }`). -/
def directWrites (addr v : Nat) : Nat → List EcOp
  | 0 => []
  | Nat.succ n => EcOp.write addr v :: EcOp.sleep 10 :: directWrites addr v n

/-- `fan_set_speed`: initialize the custom fan table if not yet initialized,
then write the remapped speed to the zone-0 table speed register of the
selected fan and five times to its legacy direct-speed register. -/
def fan_set_speed (s : DriverState) (fan_idx : Nat) (speed : Nat) :
    DriverState × List EcOp :=
  let ini := if s.fans_initialized then (s, []) else init_custom_fan_table s
  let table_addr := if fan_idx = 0 then UW_EC_REG_CPU_FAN_TABLE_FAN_SPEED
                    else UW_EC_REG_GPU_FAN_TABLE_FAN_SPEED
  let direct_addr := if fan_idx = 0 then UW_EC_REG_FAN1_SPEED
                     else UW_EC_REG_FAN2_SPEED
  let v := fanRemap speed
  let cmdOps := EcOp.write table_addr v :: directWrites direct_addr v 5
  ({ ec := applyOps ini.1.ec cmdOps, fans_initialized := ini.1.fans_initialized },
   ini.2 ++ cmdOps)

/-- Result of a sysfs store callback: success (the full count is reported
written) or -EINVAL from a failed `kstrtoint`. -/
inductive StoreResult where
  | ok
  | einval
deriving DecidableEq, Repr

/-- C cast of a parsed `int` to the `u8` parameter of `fan_set_speed`:
truncation to the low byte. -/
def intToU8 (v : Int) : Nat := (v % 256).toNat

/-- `fan1_speed_store`: parse an integer (`none` models `kstrtoint` failure,
returning -EINVAL); on success pass it to `fan_set_speed(0, (u8)speed)` and
report the count written (`fan_set_speed` always returns 0). -/
def fan1_speed_store (s : DriverState) (input : Option Int) :
    StoreResult × DriverState × List EcOp :=
  match input with
  | none => (StoreResult.einval, s, [])
  | some v =>
    let r := fan_set_speed s 0 (intToU8 v)
    (StoreResult.ok, r.1, r.2)

/-- `fan_auto_store`: parse an integer; a nonzero value triggers
`fan_set_auto`, zero does nothing; either way the full count is reported. -/
def fan_auto_store (s : DriverState) (input : Option Int) :
    StoreResult × DriverState × List EcOp :=
  match input with
  | none => (StoreResult.einval, s, [])
  | some v =>
    if v ≠ 0 then
      let r := fan_set_auto s
      (StoreResult.ok, r.1, r.2)
    else (StoreResult.ok, s, [])

/-! ## Userspace daemon, hwmon variant (0-255 PWM scale, hysteresis 8)

This is the fanctl variant that writes to a hwmon PWM sink; fan curve on the
0-255 scale with an explicit fan-off breakpoint. -/

namespace FanctlHwmon

def TEMP_OFF : Int := 55
def TEMP_SILENT : Int := 61
def TEMP_LOW : Int := 67
def TEMP_MED : Int := 73
def TEMP_HIGH : Int := 80
def TEMP_MAX : Int := 90

def HYSTERESIS : Int := 8

def SPEED_OFF : Int := 0
def SPEED_MIN : Int := 39
def SPEED_LOW : Int := 96
def SPEED_MED : Int := 128
def SPEED_HIGH : Int := 192
def SPEED_MAX : Int := 255

/-- Piecewise-linear fan curve; C integer division is truncating (`Int.tdiv`). -/
def interpolate_speed (temp : Int) : Int :=
  if temp ≤ TEMP_OFF then SPEED_OFF
  else if temp ≤ TEMP_SILENT then SPEED_MIN
  else if temp ≤ TEMP_LOW then
    SPEED_MIN + Int.tdiv ((SPEED_LOW - SPEED_MIN) * (temp - TEMP_SILENT)) (TEMP_LOW - TEMP_SILENT)
  else if temp ≤ TEMP_MED then
    SPEED_LOW + Int.tdiv ((SPEED_MED - SPEED_LOW) * (temp - TEMP_LOW)) (TEMP_MED - TEMP_LOW)
  else if temp ≤ TEMP_HIGH then
    SPEED_MED + Int.tdiv ((SPEED_HIGH - SPEED_MED) * (temp - TEMP_MED)) (TEMP_HIGH - TEMP_MED)
  else if temp ≤ TEMP_MAX then
    SPEED_HIGH + Int.tdiv ((SPEED_MAX - SPEED_HIGH) * (temp - TEMP_HIGH)) (TEMP_MAX - TEMP_HIGH)
  else SPEED_MAX

/-- Target computation with hysteresis: suppress a step-down when the curve at
`temp + HYSTERESIS` would still be at or above the previous target. -/
def calc_target (temp previous_target : Int) : Int :=
  let target := interpolate_speed temp
  if target < previous_target then
    if interpolate_speed (temp + HYSTERESIS) ≥ previous_target then previous_target
    else target
  else target

def TEMP_HISTORY_SIZE : Nat := 8

/-- The `struct temp_history` ring buffer. -/
structure TempHistory where
  samples : Nat → Int
  index : Nat
  count : Nat

/-- Sum of `samples[0] + ... + samples[n-1]`. -/
def sumSamples (f : Nat → Int) : Nat → Int
  | 0 => 0
  | Nat.succ n => sumSamples f n + f n

/-- `smooth_temp`: insert the new sample at `index`, advance the ring index,
grow `count` up to the capacity, and return the truncating-division average of
the first `count` slots. -/
def smooth_temp (h : TempHistory) (temp : Int) : TempHistory × Int :=
  let samples1 := Function.update h.samples h.index temp
  let index1 := (h.index + 1) % TEMP_HISTORY_SIZE
  let count1 := if h.count < TEMP_HISTORY_SIZE then h.count + 1 else h.count
  (⟨samples1, index1, count1⟩, Int.tdiv (sumSamples samples1 count1) (Int.ofNat count1))

/-- The per-tick raw-temperature selection in `main`: a failed read is a
negative value; if both fail the substitute raw reading is 0, if one fails the
other is used, otherwise the maximum of the two. -/
def select_raw_temp (cpu_t gpu_t : Int) : Int :=
  if cpu_t < 0 ∧ gpu_t < 0 then 0
  else if cpu_t < 0 then gpu_t
  else if gpu_t < 0 then cpu_t
  else if cpu_t > gpu_t then cpu_t else gpu_t

/-- One smoothing step of the control loop: select the raw temperature from
the two (possibly failed) reads and feed it to `smooth_temp`. -/
def tick_smoothed (h : TempHistory) (cpu_t gpu_t : Int) : TempHistory × Int :=
  smooth_temp h (select_raw_temp cpu_t gpu_t)

end FanctlHwmon

/-! ## Userspace daemon, sysfs variant (0-200 EC scale, hysteresis 6)

This is the fanctl variant driving the kernel module's sysfs nodes directly;
fan curve on the EC 0-200 scale, minimum speed 25, no off breakpoint. -/

namespace FanctlSysfs

def TEMP_SILENT : Int := 62
def TEMP_LOW : Int := 70
def TEMP_MED : Int := 78
def TEMP_HIGH : Int := 86
def TEMP_MAX : Int := 92

def HYSTERESIS : Int := 6

def SPEED_MIN : Int := 25
def SPEED_LOW : Int := 50
def SPEED_MED : Int := 100
def SPEED_HIGH : Int := 150
def SPEED_MAX : Int := 200

/-- Piecewise-linear fan curve; C integer division is truncating (`Int.tdiv`). -/
def interpolate_speed (temp : Int) : Int :=
  if temp ≤ TEMP_SILENT then SPEED_MIN
  else if temp ≤ TEMP_LOW then
    SPEED_MIN + Int.tdiv ((SPEED_LOW - SPEED_MIN) * (temp - TEMP_SILENT)) (TEMP_LOW - TEMP_SILENT)
  else if temp ≤ TEMP_MED then
    SPEED_LOW + Int.tdiv ((SPEED_MED - SPEED_LOW) * (temp - TEMP_LOW)) (TEMP_MED - TEMP_LOW)
  else if temp ≤ TEMP_HIGH then
    SPEED_MED + Int.tdiv ((SPEED_HIGH - SPEED_MED) * (temp - TEMP_MED)) (TEMP_HIGH - TEMP_MED)
  else if temp ≤ TEMP_MAX then
    SPEED_HIGH + Int.tdiv ((SPEED_MAX - SPEED_HIGH) * (temp - TEMP_HIGH)) (TEMP_MAX - TEMP_HIGH)
  else SPEED_MAX

/-- Target computation with hysteresis; `current` is `fan->current`, the
previously commanded unified target. -/
def calc_target (temp current : Int) : Int :=
  let target := interpolate_speed temp
  if target < current then
    if interpolate_speed (temp + HYSTERESIS) ≥ current then current
    else target
  else target

end FanctlSysfs

/-! ## Auxiliary definitions used by the theorems -/

/-- The mode-select registers of the EC handshake (manual-override, custom
profile, full-auto fan-mode, and the two per-table enable registers), as
opposed to the fan-curve-table and direct-speed registers. -/
def modeRegAddrs : List Nat :=
  [UW_EC_REG_CUSTOM_PROFILE, UW_EC_REG_MANUAL_MODE, UW_EC_REG_FAN_MODE,
   UW_EC_REG_USE_CUSTOM_FAN_TABLE_0, UW_EC_REG_USE_CUSTOM_FAN_TABLE_1]

/-- The sequence of distinct mode-select registers a trace touches, in order
of first touch (duplicates from a read-then-write of the same register, or
from the profile toggle, are collapsed; table-zone and speed registers are
dropped). -/
def modeAddrTrace (ops : List EcOp) : List Nat :=
  ((ops.filterMap EcOp.addrOf).filter (fun a => a ∈ modeRegAddrs)).dedup

/-- A concrete driver state with the custom fan table already initialized and
all EC registers zero. -/
def sReady : DriverState := ⟨fun _ => 0, true⟩

/-- A concrete driver state with the fan table not yet initialized and all EC
registers zero. -/
def sFresh : DriverState := ⟨fun _ => 0, false⟩

/-- A concrete full temperature history: eight samples of 50 degrees with the
ring index about to wrap. -/
def histFull : FanctlHwmon.TempHistory := ⟨fun _ => 50, 7, 8⟩

/-! ## Theorems -/

/-- On an already-initialized state, `init_custom_fan_table` returns at the
guard, unchanged and with no EC operation. -/
lemma init_custom_fan_table_of_initialized (t : DriverState)
    (h : t.fans_initialized = true) : init_custom_fan_table t = (t, []) := by
  simp [init_custom_fan_table, h]

/-- After any call to `init_custom_fan_table` the flag is set. -/
lemma init_custom_fan_table_sets_flag (s : DriverState) :
    (init_custom_fan_table s).1.fans_initialized = true := by
  by_cases h : s.fans_initialized
  · simp [init_custom_fan_table, h]
  · simp [init_custom_fan_table, h]

/-- Claim C6: `init_custom_fan_table` is idempotent via the `fans_initialized`
flag: from any driver state, the second of two consecutive calls issues no EC
transaction, so two calls perform the same operation sequence as one, and the
state after two calls equals the state after one. -/
theorem init_custom_fan_table_idempotent (s : DriverState) :
    (init_custom_fan_table (init_custom_fan_table s).1).2 = []
    ∧ (init_custom_fan_table (init_custom_fan_table s).1).1 = (init_custom_fan_table s).1
    ∧ (init_custom_fan_table s).2 ++ (init_custom_fan_table (init_custom_fan_table s).1).2
      = (init_custom_fan_table s).2 := by
  rw [init_custom_fan_table_of_initialized _ (init_custom_fan_table_sets_flag s)]
  simp

/-- Claim C7: the `uw_ec_write` retry loop makes at most 3 WMI attempts, with
the 50 ms delay inserted before each re-attempt; it returns -EIO exactly when
all three attempts fail, and it stops at the first successful attempt. -/
theorem uw_ec_write_retry_spec (oracle : Nat → Bool) :
    countAttempts (uw_ec_write oracle).2 ≤ 3
    ∧ ((uw_ec_write oracle).1 = -5 ↔
        oracle 1 = false ∧ oracle 2 = false ∧ oracle 3 = false)
    ∧ ((uw_ec_write oracle).1 = 0 ∨ (uw_ec_write oracle).1 = -5)
    ∧ (oracle 1 = true → (uw_ec_write oracle).2 = [WmiEv.attempt 1])
    ∧ (oracle 1 = false → oracle 2 = true →
        (uw_ec_write oracle).2 = [WmiEv.attempt 1, WmiEv.sleep 50, WmiEv.attempt 2])
    ∧ (oracle 1 = false → oracle 2 = false →
        (uw_ec_write oracle).2 =
          [WmiEv.attempt 1, WmiEv.sleep 50, WmiEv.attempt 2,
           WmiEv.sleep 50, WmiEv.attempt 3]) := by
  cases h1 : oracle 1 <;> cases h2 : oracle 2 <;> cases h3 : oracle 3 <;>
    simp [uw_ec_write, uw_ec_write_go, h1, h2, h3, countAttempts]

/-- Witness for C7 at a concrete always-failing oracle: the result is -EIO. -/
theorem uw_ec_write_retry_spec_witness :
    (uw_ec_write (fun _ => false)).1 = -5 :=
  ((uw_ec_write_retry_spec (fun _ => false)).2.1).mpr ⟨rfl, rfl, rfl⟩

/-- Claim C10: writing 0 to the `fan_auto` node succeeds (the full count is
reported written) but issues no EC operation and leaves the driver state,
including the `fans_initialized` flag, unchanged; a nonzero parsed value runs
`fan_set_auto`. -/
theorem fan_auto_store_zero_noop (s : DriverState) :
    fan_auto_store s (some 0) = (StoreResult.ok, s, [])
    ∧ (∀ v : Int, v ≠ 0 →
        fan_auto_store s (some v) =
          (StoreResult.ok, (fan_set_auto s).1, (fan_set_auto s).2)) := by
  constructor
  · simp [fan_auto_store]
  · intro v hv
    simp [fan_auto_store, hv]

/-- Witness for C10 at a concrete state: writing 0 is a no-op and writing 1
invokes the restore sequence. -/
theorem fan_auto_store_zero_noop_witness :
    fan_auto_store sFresh (some 0) = (StoreResult.ok, sFresh, [])
    ∧ fan_auto_store sFresh (some 1) =
        (StoreResult.ok, (fan_set_auto sFresh).1, (fan_set_auto sFresh).2) :=
  ⟨(fan_auto_store_zero_noop sFresh).1,
   (fan_auto_store_zero_noop sFresh).2 1 (by decide)⟩

/-- The remapped command value is always in [1, 200]. -/
lemma fanRemap_bounds (speed : Nat) :
    1 ≤ fanRemap speed ∧ fanRemap speed ≤ 200 := by
  simp only [fanRemap, FAN_SPEED_MAX, FAN_ON_MIN_SPEED]
  split_ifs <;> first
    | (exfalso; assumption)
    | omega

/-- Every write issued by `fan_set_speed` past initialization carries the
remapped value. -/
lemma fan_set_speed_writes (s : DriverState) (fan_idx speed : Nat)
    (hinit : s.fans_initialized = true) :
    ∀ a w, EcOp.write a w ∈ (fan_set_speed s fan_idx speed).2 → w = fanRemap speed := by
  intro a w hmem
  simp only [fan_set_speed, hinit, if_true, directWrites, List.nil_append,
    List.mem_cons, List.not_mem_nil, or_false] at hmem
  rcases hmem with h | h | h | h | h | h | h | h | h | h | h <;>
    first
      | (cases h; rfl)
      | cases h

/-- Claim C2: for every byte input, `fan_set_speed` never writes the literal
value 0 to an actuator register: input 0 becomes the reserved parked value 1,
inputs strictly between 0 and the floor 25 are raised to 25, inputs above the
maximum 200 are clamped to 200, and all other inputs are written unchanged. -/
theorem fan_set_speed_remap_spec (s : DriverState) (fan_idx speed : Nat)
    (hinit : s.fans_initialized = true) (hbyte : speed < 256) :
    (∀ a w, EcOp.write a w ∈ (fan_set_speed s fan_idx speed).2 → w = fanRemap speed)
    ∧ fanRemap speed ≠ 0
    ∧ (speed = 0 → fanRemap speed = 1)
    ∧ (0 < speed → speed < 25 → fanRemap speed = 25)
    ∧ (200 < speed → fanRemap speed = 200)
    ∧ (25 ≤ speed → speed ≤ 200 → fanRemap speed = speed) := by
  refine ⟨fan_set_speed_writes s fan_idx speed hinit, ?_, fun _ => ?_,
    fun _ _ => ?_, fun _ => ?_, fun _ _ => ?_⟩ <;>
    simp only [fanRemap, FAN_SPEED_MAX, FAN_ON_MIN_SPEED] <;>
    split_ifs <;> first
      | (exfalso; assumption)
      | omega

/-- Witness for C2 at concrete inputs: input 0 is parked at 1, and a write of
value 1 is what reaches the actuator registers. -/
theorem fan_set_speed_remap_spec_witness :
    fanRemap 0 = 1 ∧ fanRemap 0 ≠ 0 :=
  ⟨(fan_set_speed_remap_spec sReady 0 0 rfl (by decide)).2.2.1 rfl,
   (fan_set_speed_remap_spec sReady 0 0 rfl (by decide)).2.1⟩

/-- Counterexample to claim C4: the parsed integer 300 lies outside the valid
actuator range 0-200, yet the store is not rejected and the value commanded to
the zone-0 table speed register is 44 = 300 mod 256, not the clamped 200:
the C `int` argument is truncated to the `u8` parameter of `fan_set_speed`
before the clamp. -/
theorem fan1_speed_store_mod256_counterexample :
    (fan1_speed_store sReady (some 300)).1 = StoreResult.ok
    ∧ EcOp.write UW_EC_REG_CPU_FAN_TABLE_FAN_SPEED 44
        ∈ (fan1_speed_store sReady (some 300)).2.2
    ∧ EcOp.write UW_EC_REG_CPU_FAN_TABLE_FAN_SPEED 200
        ∉ (fan1_speed_store sReady (some 300)).2.2
    ∧ intToU8 300 = 44 := by
  refine ⟨rfl, ?_, ?_, rfl⟩ <;> decide

/-- Claim C4 as amended: a parsed integer is first truncated to its low byte
(`v mod 256`) and only then clamped and remapped, so the store always succeeds
and every value commanded to an actuator register is the remap of the low
byte — within [1, 200], but possibly a different in-range value than any clamp
of the original integer. -/
theorem fan1_speed_store_amended_spec (v : Int) (s : DriverState)
    (hinit : s.fans_initialized = true) :
    (fan1_speed_store s (some v)).1 = StoreResult.ok
    ∧ (∀ a w, EcOp.write a w ∈ (fan1_speed_store s (some v)).2.2 →
        w = fanRemap (intToU8 v))
    ∧ 1 ≤ fanRemap (intToU8 v) ∧ fanRemap (intToU8 v) ≤ 200 := by
  refine ⟨rfl, ?_, fanRemap_bounds (intToU8 v)⟩
  intro a w hmem
  exact fan_set_speed_writes s 0 (intToU8 v) hinit a w hmem

/-- Witness for the amended C4 at the parsed value -1: the commanded byte is
the remap of the low byte 255, namely the clamp 200. -/
theorem fan1_speed_store_amended_spec_witness :
    (fan1_speed_store sReady (some (-1))).1 = StoreResult.ok
    ∧ fanRemap (intToU8 (-1)) ≤ 200 :=
  ⟨(fan1_speed_store_amended_spec (-1) sReady rfl).1,
   (fan1_speed_store_amended_spec (-1) sReady rfl).2.2.2⟩

/-- Counterexample to claim C5: with the history full of eight samples of 50
(previous smoothed value 50), a tick on which both temperature reads fail
yields smoothed value 43, not the held 50: the loop substitutes the raw
reading 0 and feeds it into the smoother. -/
theorem smooth_temp_allfail_counterexample :
    (FanctlHwmon.smooth_temp histFull 50).2 = 50
    ∧ (FanctlHwmon.tick_smoothed (FanctlHwmon.smooth_temp histFull 50).1 (-1) (-1)).2 = 43
    ∧ (43 : Int) ≠ 50 := by
  refine ⟨?_, ?_, by decide⟩ <;> decide

/-- Claim C5 as amended: on a tick where both temperature reads fail, the
control loop substitutes 0 for the raw temperature and feeds it into the
smoother, so the smoothed value is the ring average with a 0 sample inserted,
not the held previous smoothed value. -/
theorem smooth_temp_allfail_amended (h : FanctlHwmon.TempHistory) (c g : Int)
    (hc : c < 0) (hg : g < 0) :
    FanctlHwmon.select_raw_temp c g = 0
    ∧ FanctlHwmon.tick_smoothed h c g = FanctlHwmon.smooth_temp h 0 := by
  have hsel : FanctlHwmon.select_raw_temp c g = 0 := by
    simp [FanctlHwmon.select_raw_temp, hc, hg]
  exact ⟨hsel, by simp [FanctlHwmon.tick_smoothed, hsel]⟩

/-- Witness for the amended C5 at concrete failed readings. -/
theorem smooth_temp_allfail_amended_witness :
    FanctlHwmon.select_raw_temp (-1) (-2) = 0
    ∧ FanctlHwmon.tick_smoothed histFull (-1) (-2) = FanctlHwmon.smooth_temp histFull 0 :=
  smooth_temp_allfail_amended histFull (-1) (-2) (by decide) (by decide)

/-- Claim C3: in both daemon variants, a step-down is suppressed exactly when
the curve at `temp + HYSTERESIS` is still at or above the previous target; when
the curve at `temp + HYSTERESIS` is below the previous target the freshly
interpolated value is commanded; and a step-up is never suppressed. -/
theorem calc_target_hysteresis_spec (t v : Int) :
    (FanctlSysfs.interpolate_speed t < v →
      FanctlSysfs.interpolate_speed (t + FanctlSysfs.HYSTERESIS) ≥ v →
      FanctlSysfs.calc_target t v = v)
    ∧ (FanctlSysfs.interpolate_speed (t + FanctlSysfs.HYSTERESIS) < v →
      FanctlSysfs.calc_target t v = FanctlSysfs.interpolate_speed t)
    ∧ (FanctlSysfs.interpolate_speed t ≥ v →
      FanctlSysfs.calc_target t v = FanctlSysfs.interpolate_speed t)
    ∧ (FanctlHwmon.interpolate_speed t < v →
      FanctlHwmon.interpolate_speed (t + FanctlHwmon.HYSTERESIS) ≥ v →
      FanctlHwmon.calc_target t v = v)
    ∧ (FanctlHwmon.interpolate_speed (t + FanctlHwmon.HYSTERESIS) < v →
      FanctlHwmon.calc_target t v = FanctlHwmon.interpolate_speed t)
    ∧ (FanctlHwmon.interpolate_speed t ≥ v →
      FanctlHwmon.calc_target t v = FanctlHwmon.interpolate_speed t) := by
  refine ⟨fun h1 h2 => ?_, fun h1 => ?_, fun h1 => ?_,
    fun h1 h2 => ?_, fun h1 => ?_, fun h1 => ?_⟩ <;>
    simp only [FanctlSysfs.calc_target, FanctlHwmon.calc_target] <;>
    split_ifs <;> omega

/-- Witness for C3 at temperature 64 with previous target 50 in the sysfs
variant: the curve gives 31 but the step-down is suppressed. -/
theorem calc_target_hysteresis_spec_witness :
    FanctlSysfs.calc_target 64 50 = 50 :=
  (calc_target_hysteresis_spec 64 50).1 (by decide) (by decide)

/-- Below or at the lowest breakpoint the sysfs-variant curve is the minimum. -/
lemma sysfs_interp_le_silent (t : Int) (h : t ≤ FanctlSysfs.TEMP_SILENT) :
    FanctlSysfs.interpolate_speed t = FanctlSysfs.SPEED_MIN := by
  simp only [FanctlSysfs.TEMP_SILENT] at h
  simp only [FanctlSysfs.interpolate_speed, FanctlSysfs.TEMP_SILENT,
    FanctlSysfs.SPEED_MIN]
  rw [if_pos (by omega)]

/-- Above the highest breakpoint the sysfs-variant curve is the maximum. -/
lemma sysfs_interp_gt_max (t : Int) (h : FanctlSysfs.TEMP_MAX < t) :
    FanctlSysfs.interpolate_speed t = FanctlSysfs.SPEED_MAX := by
  simp only [FanctlSysfs.TEMP_MAX] at h
  simp only [FanctlSysfs.interpolate_speed, FanctlSysfs.TEMP_SILENT,
    FanctlSysfs.TEMP_LOW, FanctlSysfs.TEMP_MED, FanctlSysfs.TEMP_HIGH,
    FanctlSysfs.TEMP_MAX, FanctlSysfs.SPEED_MAX]
  rw [if_neg (by omega), if_neg (by omega), if_neg (by omega),
    if_neg (by omega), if_neg (by omega)]

/-- Below or at the off breakpoint the hwmon-variant curve is off. -/
lemma hwmon_interp_le_off (t : Int) (h : t ≤ FanctlHwmon.TEMP_OFF) :
    FanctlHwmon.interpolate_speed t = FanctlHwmon.SPEED_OFF := by
  simp only [FanctlHwmon.TEMP_OFF] at h
  simp only [FanctlHwmon.interpolate_speed, FanctlHwmon.TEMP_OFF,
    FanctlHwmon.SPEED_OFF]
  rw [if_pos (by omega)]

/-- Above the highest breakpoint the hwmon-variant curve is the maximum. -/
lemma hwmon_interp_gt_max (t : Int) (h : FanctlHwmon.TEMP_MAX < t) :
    FanctlHwmon.interpolate_speed t = FanctlHwmon.SPEED_MAX := by
  simp only [FanctlHwmon.TEMP_MAX] at h
  simp only [FanctlHwmon.interpolate_speed, FanctlHwmon.TEMP_OFF,
    FanctlHwmon.TEMP_SILENT, FanctlHwmon.TEMP_LOW, FanctlHwmon.TEMP_MED,
    FanctlHwmon.TEMP_HIGH, FanctlHwmon.TEMP_MAX, FanctlHwmon.SPEED_MAX]
  rw [if_neg (by omega), if_neg (by omega), if_neg (by omega),
    if_neg (by omega), if_neg (by omega), if_neg (by omega)]

/-- Claim C8: in both curve variants, strictly below the lowest breakpoint the
curve returns the minimum value (the off value in the hwmon variant), strictly
above the highest breakpoint it returns the maximum, and at each breakpoint it
returns exactly the configured speed for that breakpoint. -/
theorem interpolate_speed_boundary_spec (t : Int) :
    (t < FanctlSysfs.TEMP_SILENT →
      FanctlSysfs.interpolate_speed t = FanctlSysfs.SPEED_MIN)
    ∧ (FanctlSysfs.TEMP_MAX < t →
      FanctlSysfs.interpolate_speed t = FanctlSysfs.SPEED_MAX)
    ∧ FanctlSysfs.interpolate_speed FanctlSysfs.TEMP_SILENT = FanctlSysfs.SPEED_MIN
    ∧ FanctlSysfs.interpolate_speed FanctlSysfs.TEMP_LOW = FanctlSysfs.SPEED_LOW
    ∧ FanctlSysfs.interpolate_speed FanctlSysfs.TEMP_MED = FanctlSysfs.SPEED_MED
    ∧ FanctlSysfs.interpolate_speed FanctlSysfs.TEMP_HIGH = FanctlSysfs.SPEED_HIGH
    ∧ FanctlSysfs.interpolate_speed FanctlSysfs.TEMP_MAX = FanctlSysfs.SPEED_MAX
    ∧ (t < FanctlHwmon.TEMP_OFF →
      FanctlHwmon.interpolate_speed t = FanctlHwmon.SPEED_OFF)
    ∧ (FanctlHwmon.TEMP_MAX < t →
      FanctlHwmon.interpolate_speed t = FanctlHwmon.SPEED_MAX)
    ∧ FanctlHwmon.interpolate_speed FanctlHwmon.TEMP_OFF = FanctlHwmon.SPEED_OFF
    ∧ FanctlHwmon.interpolate_speed FanctlHwmon.TEMP_SILENT = FanctlHwmon.SPEED_MIN
    ∧ FanctlHwmon.interpolate_speed FanctlHwmon.TEMP_LOW = FanctlHwmon.SPEED_LOW
    ∧ FanctlHwmon.interpolate_speed FanctlHwmon.TEMP_MED = FanctlHwmon.SPEED_MED
    ∧ FanctlHwmon.interpolate_speed FanctlHwmon.TEMP_HIGH = FanctlHwmon.SPEED_HIGH
    ∧ FanctlHwmon.interpolate_speed FanctlHwmon.TEMP_MAX = FanctlHwmon.SPEED_MAX :=
  ⟨fun h => sysfs_interp_le_silent t (le_of_lt h),
   fun h => sysfs_interp_gt_max t h,
   by decide, by decide, by decide, by decide, by decide,
   fun h => hwmon_interp_le_off t (le_of_lt h),
   fun h => hwmon_interp_gt_max t h,
   by decide, by decide, by decide, by decide, by decide, by decide⟩

/-- Witness for C8 at concrete temperatures on both sides of the table. -/
theorem interpolate_speed_boundary_spec_witness :
    FanctlSysfs.interpolate_speed 40 = FanctlSysfs.SPEED_MIN
    ∧ FanctlHwmon.interpolate_speed 100 = FanctlHwmon.SPEED_MAX :=
  ⟨(interpolate_speed_boundary_spec 40).1 (by decide),
   (interpolate_speed_boundary_spec 100).2.2.2.2.2.2.2.2.1 (by decide)⟩

/-- Single-step monotonicity of the sysfs-variant curve across the breakpoint
span, checked pointwise. -/
lemma sysfs_interp_step_mid :
    ∀ t ∈ Finset.Icc (62 : Int) 92,
      FanctlSysfs.interpolate_speed t ≤ FanctlSysfs.interpolate_speed (t + 1) := by
  decide

/-- Single-step monotonicity of the sysfs-variant curve everywhere. -/
lemma sysfs_interp_step (t : Int) :
    FanctlSysfs.interpolate_speed t ≤ FanctlSysfs.interpolate_speed (t + 1) := by
  rcases le_or_lt t 61 with h | h
  · rw [sysfs_interp_le_silent t (by simp [FanctlSysfs.TEMP_SILENT]; omega),
      sysfs_interp_le_silent (t + 1) (by simp [FanctlSysfs.TEMP_SILENT]; omega)]
  · rcases le_or_lt t 92 with h2 | h2
    · exact sysfs_interp_step_mid t (Finset.mem_Icc.mpr ⟨by omega, h2⟩)
    · rw [sysfs_interp_gt_max t (by simp [FanctlSysfs.TEMP_MAX]; omega),
        sysfs_interp_gt_max (t + 1) (by simp [FanctlSysfs.TEMP_MAX]; omega)]

/-- The sysfs-variant curve is monotone. -/
lemma sysfs_interp_monotone : Monotone FanctlSysfs.interpolate_speed :=
  monotone_int_of_le_succ sysfs_interp_step

/-- Single-step monotonicity of the hwmon-variant curve across the breakpoint
span, checked pointwise. -/
lemma hwmon_interp_step_mid :
    ∀ t ∈ Finset.Icc (55 : Int) 90,
      FanctlHwmon.interpolate_speed t ≤ FanctlHwmon.interpolate_speed (t + 1) := by
  decide

/-- Single-step monotonicity of the hwmon-variant curve everywhere. -/
lemma hwmon_interp_step (t : Int) :
    FanctlHwmon.interpolate_speed t ≤ FanctlHwmon.interpolate_speed (t + 1) := by
  rcases le_or_lt t 54 with h | h
  · rw [hwmon_interp_le_off t (by simp [FanctlHwmon.TEMP_OFF]; omega),
      hwmon_interp_le_off (t + 1) (by simp [FanctlHwmon.TEMP_OFF]; omega)]
  · rcases le_or_lt t 90 with h2 | h2
    · exact hwmon_interp_step_mid t (Finset.mem_Icc.mpr ⟨by omega, h2⟩)
    · rw [hwmon_interp_gt_max t (by simp [FanctlHwmon.TEMP_MAX]; omega),
        hwmon_interp_gt_max (t + 1) (by simp [FanctlHwmon.TEMP_MAX]; omega)]

/-- The hwmon-variant curve is monotone. -/
lemma hwmon_interp_monotone : Monotone FanctlHwmon.interpolate_speed :=
  monotone_int_of_le_succ hwmon_interp_step

/-- Claim C9: in both variants the fan curve is monotone non-decreasing in
temperature, across segment boundaries and under the truncating integer
division used inside each linear segment. -/
theorem interpolate_speed_monotone (t1 t2 : Int) (h : t1 ≤ t2) :
    FanctlSysfs.interpolate_speed t1 ≤ FanctlSysfs.interpolate_speed t2
    ∧ FanctlHwmon.interpolate_speed t1 ≤ FanctlHwmon.interpolate_speed t2 :=
  ⟨sysfs_interp_monotone h, hwmon_interp_monotone h⟩

/-- Witness for C9 at a concrete temperature pair straddling the whole table. -/
theorem interpolate_speed_monotone_witness :
    FanctlSysfs.interpolate_speed 0 ≤ FanctlSysfs.interpolate_speed 100
    ∧ FanctlHwmon.interpolate_speed 0 ≤ FanctlHwmon.interpolate_speed 100 :=
  interpolate_speed_monotone 0 100 (by decide)

/-- None of the dummy-zone fill writes touches a mode-select register. -/
lemma zoneDummy_filtered :
    List.filter (fun a => a ∈ modeRegAddrs)
      (List.filterMap EcOp.addrOf (zoneDummyOps 15)) = [] := by decide

/-- The mode-select registers touched by `fan_set_auto`, in order: table-1
enable, table-0 enable, fan-mode, manual-mode, custom-profile. -/
lemma modeAddrTrace_exit (s : DriverState) :
    modeAddrTrace (fan_set_auto s).2 =
      [UW_EC_REG_USE_CUSTOM_FAN_TABLE_1, UW_EC_REG_USE_CUSTOM_FAN_TABLE_0,
       UW_EC_REG_FAN_MODE, UW_EC_REG_MANUAL_MODE, UW_EC_REG_CUSTOM_PROFILE] := by
  by_cases h1 : s.ec UW_EC_REG_USE_CUSTOM_FAN_TABLE_1 >>> 2 % 2 = 1 <;>
  by_cases h0 : s.ec UW_EC_REG_USE_CUSTOM_FAN_TABLE_0 >>> 7 % 2 = 1 <;>
  by_cases hm : s.ec UW_EC_REG_FAN_MODE &&& UW_EC_FAN_MODE_BIT = 0 <;>
  by_cases hp : s.ec UW_EC_REG_CUSTOM_PROFILE &&& UW_EC_CUSTOM_PROFILE_BIT = 0 <;>
    simp [fan_set_auto, modeAddrTrace, EcOp.addrOf, h1, h0, hm, hp] <;>
    decide

/-- The mode-select registers touched by `init_custom_fan_table` on a
not-yet-initialized state, in order: custom-profile, manual-mode, fan-mode,
table-0 enable, table-1 enable. -/
lemma modeAddrTrace_enter (s : DriverState) (hflag : s.fans_initialized = false) :
    modeAddrTrace (init_custom_fan_table s).2 =
      [UW_EC_REG_CUSTOM_PROFILE, UW_EC_REG_MANUAL_MODE, UW_EC_REG_FAN_MODE,
       UW_EC_REG_USE_CUSTOM_FAN_TABLE_0, UW_EC_REG_USE_CUSTOM_FAN_TABLE_1] := by
  by_cases hm : s.ec UW_EC_REG_FAN_MODE &&& UW_EC_FAN_MODE_BIT = 0 <;>
  by_cases h0 : s.ec UW_EC_REG_USE_CUSTOM_FAN_TABLE_0 >>> 7 % 2 = 0 <;>
  by_cases h1 : s.ec UW_EC_REG_USE_CUSTOM_FAN_TABLE_1 >>> 2 % 2 = 0 <;>
    simp [init_custom_fan_table, hflag, modeAddrTrace, EcOp.addrOf,
      zoneDummy_filtered, hm, h0, h1] <;>
    decide

/-- With both table-enable bits, the fan-mode bit and the custom-profile bit
clear and the manual-mode register 0, `fan_set_auto` leaves EC RAM unchanged:
the only unconditional operation writes back the 0 already stored. -/
lemma fan_set_auto_noop (s : DriverState)
    (h1 : (s.ec UW_EC_REG_USE_CUSTOM_FAN_TABLE_1 >>> 2) &&& 1 ≠ 1)
    (h0 : (s.ec UW_EC_REG_USE_CUSTOM_FAN_TABLE_0 >>> 7) &&& 1 ≠ 1)
    (hm : s.ec UW_EC_REG_FAN_MODE &&& UW_EC_FAN_MODE_BIT = 0)
    (hp : s.ec UW_EC_REG_CUSTOM_PROFILE &&& UW_EC_CUSTOM_PROFILE_BIT = 0)
    (hman : s.ec UW_EC_REG_MANUAL_MODE = 0) :
    (fan_set_auto s).1.ec = s.ec := by
  rw [Nat.and_one_is_mod] at h1 h0
  simp [fan_set_auto, applyOps, applyOp, h1, h0, hm, hp, hman]

/-- Claim C1: `fan_set_auto` touches the mode-select registers in exactly the
reverse order of `init_custom_fan_table` (table-1 enable, then table-0 enable,
then fan-mode, then manual-override, then custom-profile), and when invoked in
a state that is already hardware-automatic (both table-enable bits, the
full-auto fan-mode bit and the custom-profile bit clear, manual mode 0) it
leaves the EC register state unchanged. -/
theorem fan_set_auto_reverse_noop (s : DriverState) :
    modeAddrTrace (fan_set_auto s).2 =
      [UW_EC_REG_USE_CUSTOM_FAN_TABLE_1, UW_EC_REG_USE_CUSTOM_FAN_TABLE_0,
       UW_EC_REG_FAN_MODE, UW_EC_REG_MANUAL_MODE, UW_EC_REG_CUSTOM_PROFILE]
    ∧ (s.fans_initialized = false →
        modeAddrTrace (init_custom_fan_table s).2 =
          [UW_EC_REG_CUSTOM_PROFILE, UW_EC_REG_MANUAL_MODE, UW_EC_REG_FAN_MODE,
           UW_EC_REG_USE_CUSTOM_FAN_TABLE_0, UW_EC_REG_USE_CUSTOM_FAN_TABLE_1])
    ∧ (s.fans_initialized = false →
        modeAddrTrace (fan_set_auto s).2 =
          (modeAddrTrace (init_custom_fan_table s).2).reverse)
    ∧ ((s.ec UW_EC_REG_USE_CUSTOM_FAN_TABLE_1 >>> 2) &&& 1 ≠ 1 →
       (s.ec UW_EC_REG_USE_CUSTOM_FAN_TABLE_0 >>> 7) &&& 1 ≠ 1 →
       s.ec UW_EC_REG_FAN_MODE &&& UW_EC_FAN_MODE_BIT = 0 →
       s.ec UW_EC_REG_CUSTOM_PROFILE &&& UW_EC_CUSTOM_PROFILE_BIT = 0 →
       s.ec UW_EC_REG_MANUAL_MODE = 0 →
       (fan_set_auto s).1.ec = s.ec) := by
  refine ⟨modeAddrTrace_exit s, modeAddrTrace_enter s, fun hflag => ?_,
    fan_set_auto_noop s⟩
  rw [modeAddrTrace_exit s, modeAddrTrace_enter s hflag]
  decide

/-- Witness for C1 at the all-zero uninitialized state (hardware-automatic):
the exit order is the reverse of the enter order and the EC RAM is unchanged. -/
theorem fan_set_auto_reverse_noop_witness :
    modeAddrTrace (fan_set_auto sFresh).2 =
      (modeAddrTrace (init_custom_fan_table sFresh).2).reverse
    ∧ (fan_set_auto sFresh).1.ec = sFresh.ec :=
  ⟨(fan_set_auto_reverse_noop sFresh).2.2.1 rfl,
   (fan_set_auto_reverse_noop sFresh).2.2.2 (by decide) (by decide) (by decide)
     (by decide) (by decide)⟩
